import Mathlib

set_option linter.unusedVariables false

/-!
Shallow embedding of the `quantum-chemistry-pes` repository
(src/pes_scan.py, src/vqe_runner.py, src/exact_solver.py, src/molecules.py).

The repository is orchestration code over external quantum-computing
libraries (qiskit, qiskit-algorithms, qiskit-nature, numpy).  The external
library calls are modelled as fields of an environment record `Env`:
qiskit's statevector `Estimator`, the `COBYLA` optimizer and
`NumPyMinimumEigensolver` are deterministic given their inputs, so each is
a pure function in the environment.  Python floats are modelled by an
arbitrary linear ordered field `R` (instantiated with `ℚ` in concrete
evaluations).  Exceptions are modelled with `Except String`.

Python functions can in principle read ambient process state (global RNG,
clock); none of the repository's functions do — `run_vqe` builds a fresh
generator from the caller's seed, and the callback list is local.  To make
those determinism statements expressible rather than vacuous, every
embedded operation also receives a read-only `World` record describing the
ambient state, which the bodies (faithfully to the source) never consult.
-/

namespace QuantumChemPES

/-- Ambient process state a Python callable could observe: the state of
numpy's global generator and a clock.  The source never reads either. -/
structure World where
  globalRngState : ℕ
  clock : ℕ
deriving DecidableEq, Repr

/-- A qubit Hamiltonian (qiskit `SparsePauliOp`): a weighted sum of Pauli
strings over a fixed qubit count.  The orchestration layer only reads
`num_qubits`; the term list is carried as opaque data. -/
structure QubitOp (R : Type) where
  num_qubits : ℕ
  terms : List (String × R)
deriving DecidableEq, Repr

/-- The `ElectronicStructureProblem` context object; the scanner reads only
the scalar `nuclear_repulsion_energy`. -/
structure Problem (R : Type) where
  nuclear_repulsion_energy : R
deriving DecidableEq, Repr

/-- The ansatz circuit built by `run_vqe`: either
`RealAmplitudes(num_qubits, reps, entanglement='linear')` or
`EfficientSU2(num_qubits, reps, entanglement='circular')`. -/
inductive Ansatz where
  | realAmplitudes (num_qubits : ℕ) (reps : ℕ) (entanglement : String)
  | efficientSU2 (num_qubits : ℕ) (reps : ℕ) (entanglement : String)
deriving DecidableEq, Repr

/-- Outcome of qiskit's `VQE.compute_minimum_eigenvalue` together with the
sequence of objective values passed to the recording callback, in
callback-invocation order. -/
structure VqeOutcome (R : Type) where
  eigenvalue : R
  optimal_parameters : List R
  callback_values : List R
deriving DecidableEq, Repr

/-- The dict returned by `run_vqe`, with exactly its five keys. -/
structure VqeResult (R : Type) where
  energy : R
  optimal_params : List R
  energy_history : List R
  num_params : ℕ
  ansatz_type : String
deriving DecidableEq, Repr

/-- External library behaviour.  `rngUniform seed low high size` is
`np.random.default_rng(seed).uniform(low, high, size)`; `pi`, `sin`, `cos`
are numpy's constants/functions; `realAmpNumParams`/`effSU2NumParams` give
`ansatz.num_parameters` for the two circuit families as a function of
qubit count and repetition depth; `computeMinEig` is the Estimator+COBYLA
hybrid loop of `VQE.compute_minimum_eigenvalue` (deterministic given the
ansatz, iteration cap, initial point and operator); `numpyMinEig` is
`NumPyMinimumEigensolver().compute_minimum_eigenvalue(·).eigenvalue.real`.
External failures surface as `Except.error`. -/
structure Env (R : Type) where
  pi : R
  sin : R → R
  cos : R → R
  rngUniform : ℕ → R → R → ℕ → List R
  realAmpNumParams : ℕ → ℕ → ℕ
  effSU2NumParams : ℕ → ℕ → ℕ
  computeMinEig : Ansatz → ℕ → List R → QubitOp R → Except String (VqeOutcome R)
  numpyMinEig : QubitOp R → Except String R

/-- Parameter count of an ansatz circuit (`ansatz.num_parameters`),
determined by the topology, qubit count and repetition depth. -/
def Ansatz.num_parameters {R : Type} (env : Env R) : Ansatz → ℕ
  | Ansatz.realAmplitudes q r _ => env.realAmpNumParams q r
  | Ansatz.efficientSU2 q r _ => env.effSU2NumParams q r

/-- Ansatz construction step of `run_vqe` (vqe_runner.py lines 32-46):
dispatch on the `ansatz_type` string; any name other than the two
supported ones raises `ValueError(f"Unknown ansatz type: {ansatz_type}")`. -/
def build_ansatz (num_qubits : ℕ) (ansatz_type : String) (reps : ℕ) :
    Except String Ansatz :=
  if ansatz_type = "RealAmplitudes" then
    Except.ok (Ansatz.realAmplitudes num_qubits reps "linear")
  else if ansatz_type = "EfficientSU2" then
    Except.ok (Ansatz.efficientSU2 num_qubits reps "circular")
  else
    Except.error ("Unknown ansatz type: " ++ ansatz_type)

/-- Random initial point of `run_vqe` (vqe_runner.py lines 64-66):
`rng = np.random.default_rng(seed); rng.uniform(-np.pi, np.pi, n)`. -/
def vqe_initial_point {R : Type} [LinearOrderedField R] (env : Env R)
    (seed : ℕ) (n : ℕ) : List R :=
  env.rngUniform seed (-env.pi) env.pi n

/-- Assembly of the result dict of `run_vqe` (vqe_runner.py lines 70-76):
the recording callback appended exactly the objective values, in
invocation order, so `energy_history` is the outcome's callback trace. -/
def vqe_package {R : Type} (ansatz_type : String) (num_params : ℕ)
    (outcome : VqeOutcome R) : VqeResult R :=
  { energy := outcome.eigenvalue
    optimal_params := outcome.optimal_parameters
    energy_history := outcome.callback_values
    num_params := num_params
    ansatz_type := ansatz_type }

/-- Embedding of `run_vqe(hamiltonian, ansatz_type, reps, maxiter, seed)`
(vqe_runner.py).  The `World` argument is the ambient process state; the
body never consults it, because the source derives everything from its
arguments (the generator is freshly constructed from `seed`). -/
def run_vqe {R : Type} [LinearOrderedField R] (env : Env R) (w : World)
    (hamiltonian : QubitOp R) (ansatz_type : String := "RealAmplitudes")
    (reps : ℕ := 3) (maxiter : ℕ := 200) (seed : ℕ := 42) :
    Except String (VqeResult R) :=
  match build_ansatz hamiltonian.num_qubits ansatz_type reps with
  | Except.error e => Except.error e
  | Except.ok ansatz =>
    match env.computeMinEig ansatz maxiter
        (vqe_initial_point env seed (Ansatz.num_parameters env ansatz))
        hamiltonian with
    | Except.error e => Except.error e
    | Except.ok outcome =>
      Except.ok (vqe_package ansatz_type (Ansatz.num_parameters env ansatz) outcome)

/-- Embedding of `exact_energy(hamiltonian)` (exact_solver.py): a fresh
`NumPyMinimumEigensolver` is constructed inside the call and its minimum
eigenvalue returned; no state survives the call, so the body depends only
on the environment and the operator, never on the ambient `World`. -/
def exact_energy {R : Type} [LinearOrderedField R] (env : Env R) (w : World)
    (hamiltonian : QubitOp R) : Except String R :=
  env.numpyMinEig hamiltonian

/-- Loop body of `scan_pes` (pes_scan.py lines 45-63) at enumeration index
`i` and geometry value `d`: build the molecule, run VQE with seed
`seed + i`, add the nuclear repulsion to both eigenvalues, take the
absolute error.  Returns the row
(vqe_energy, exact_energy, error, nuclear_repulsion). -/
def scan_point {R : Type} [LinearOrderedField R] (env : Env R) (w : World)
    (molecule_builder : R → Except String (QubitOp R × Problem R))
    (ansatz_type : String) (reps maxiter seed : ℕ) (i : ℕ) (d : R) :
    Except String (R × R × R × R) :=
  match molecule_builder d with
  | Except.error e => Except.error e
  | Except.ok (qubit_op, problem) =>
    match run_vqe env w qubit_op ansatz_type reps maxiter (seed + i) with
    | Except.error e => Except.error e
    | Except.ok vqe_result =>
      match exact_energy env w qubit_op with
      | Except.error e => Except.error e
      | Except.ok exact_raw =>
        Except.ok
          (vqe_result.energy + problem.nuclear_repulsion_energy,
           exact_raw + problem.nuclear_repulsion_energy,
           |vqe_result.energy + problem.nuclear_repulsion_energy -
             (exact_raw + problem.nuclear_repulsion_energy)|,
           problem.nuclear_repulsion_energy)

/-- The whole `for i, d in enumerate(distances)` loop of `scan_pes`,
accumulating the four parallel lists in point order; the first failing
point's exception aborts the loop and propagates unchanged. -/
def scan_loop {R : Type} [LinearOrderedField R] (env : Env R) (w : World)
    (molecule_builder : R → Except String (QubitOp R × Problem R))
    (ansatz_type : String) (reps maxiter seed : ℕ) :
    List (ℕ × R) → Except String (List R × List R × List R × List R)
  | [] => Except.ok ([], [], [], [])
  | (i, d) :: rest =>
    match scan_point env w molecule_builder ansatz_type reps maxiter seed i d with
    | Except.error e => Except.error e
    | Except.ok row =>
      match scan_loop env w molecule_builder ansatz_type reps maxiter seed rest with
      | Except.error e => Except.error e
      | Except.ok (vs, es, errs, ns) =>
        Except.ok (row.1 :: vs, row.2.1 :: es, row.2.2.1 :: errs, row.2.2.2 :: ns)

/-- The dict returned by `scan_pes`, with exactly its five keys; every
value is an ordered sequence. -/
structure ScanTable (R : Type) where
  distances : List R
  vqe_energies : List R
  exact_energies : List R
  errors : List R
  nuclear_repulsions : List R
deriving DecidableEq, Repr

/-- Embedding of `scan_pes(molecule_builder, distances, ansatz_type, reps,
maxiter, seed)` (pes_scan.py).  `np.array(distances).tolist()` is the
identity on the value sequence; the per-point progress prints are
side-effect-only and carry no data, so they are not modelled. -/
def scan_pes {R : Type} [LinearOrderedField R] (env : Env R) (w : World)
    (molecule_builder : R → Except String (QubitOp R × Problem R))
    (distances : List R) (ansatz_type : String := "RealAmplitudes")
    (reps : ℕ := 3) (maxiter : ℕ := 200) (seed : ℕ := 42) :
    Except String (ScanTable R) :=
  match scan_loop env w molecule_builder ansatz_type reps maxiter seed
      distances.enum with
  | Except.error e => Except.error e
  | Except.ok (vs, es, errs, ns) =>
    Except.ok
      { distances := distances
        vqe_energies := vs
        exact_energies := es
        errors := errs
        nuclear_repulsions := ns }

/-- Numpy's `np.radians`: degrees to radians, `x * π / 180`. -/
def np_radians {R : Type} [LinearOrderedField R] (env : Env R) (x : R) : R :=
  x * env.pi / 180

/-- One atom of a geometry specification: element symbol and Cartesian
coordinates, as computed by the builders before being formatted (with six
decimal places) into the driver's atom string. -/
structure Atom (R : Type) where
  symbol : String
  x : R
  y : R
  z : R
deriving DecidableEq, Repr

/-- Geometry computed by `build_beh2(angle)` (molecules.py lines 107-119):
`d = 1.326`; `half_angle = np.radians(angle / 2.0)`;
`h1_y = d * np.sin(half_angle)`; `h1_z = d * np.cos(half_angle)`; atoms
`Be (0,0,0)`, `H (0, h1_y, h1_z)`, `H (0, -h1_y, h1_z)`, in that order in
the atom string handed to the PySCF driver. -/
def build_beh2_geometry {R : Type} [LinearOrderedField R] (env : Env R)
    (angle : R) : List (Atom R) :=
  let d : R := 1326 / 1000
  let half_angle := np_radians env (angle / 2)
  let h1_y := d * env.sin half_angle
  let h1_z := d * env.cos half_angle
  [⟨"Be", 0, 0, 0⟩, ⟨"H", 0, h1_y, h1_z⟩, ⟨"H", 0, -h1_y, h1_z⟩]

/-- BeH2 geometry as the specification words it: Be at the origin and the
two H atoms symmetrically about the z-axis at
`(0, ±d·sin(θ/2 in radians), d·cos(θ/2 in radians))` with `d = 1.326`. -/
def beh2_spec_positions {R : Type} [LinearOrderedField R] (env : Env R)
    (theta : R) : List (Atom R) :=
  let d : R := 1326 / 1000
  let rad := theta / 2 * env.pi / 180
  [⟨"Be", 0, 0, 0⟩,
   ⟨"H", 0, d * env.sin rad, d * env.cos rad⟩,
   ⟨"H", 0, -(d * env.sin rad), d * env.cos rad⟩]

/-! Concrete instances over `ℚ`, used to evaluate the embedded operations
on closed inputs. -/

/-- A concrete ambient state. -/
def w0 : World := ⟨0, 0⟩

/-- A concrete environment over `ℚ`: constant trigonometry, a generator
that repeats the lower bound, parameter counts matching the two circuit
families, a hybrid loop that always reports eigenvalue `-1` after one
callback, and an exact diagonalizer that always reports `-2`. -/
def envQ : Env ℚ where
  pi := 4
  sin := fun _ => 0
  cos := fun _ => 1
  rngUniform := fun _ lo _ n => List.replicate n lo
  realAmpNumParams := fun q r => (r + 1) * q
  effSU2NumParams := fun q r => 2 * ((r + 1) * q)
  computeMinEig := fun _ _ _ _ => Except.ok ⟨-1, [], [-1]⟩
  numpyMinEig := fun _ => Except.ok (-2)

/-- Like `envQ` but with a generator that is injective in the seed (the
produced list's length reveals the seed). -/
def envQinj : Env ℚ :=
  { envQ with rngUniform := fun s lo _ n => List.replicate (n + s) lo }

/-- A concrete molecule builder over `ℚ`: a two-qubit operator and a
context whose nuclear repulsion energy equals the geometry parameter. -/
def builderQ : ℚ → Except String (QubitOp ℚ × Problem ℚ) :=
  fun d => Except.ok (⟨2, []⟩, ⟨d⟩)

/-- A molecule builder that fails (as the external driver might) at the
geometry value `1` and succeeds elsewhere. -/
def builderFailQ : ℚ → Except String (QubitOp ℚ × Problem ℚ) :=
  fun d => if d = 1 then Except.error "boom" else builderQ d

/-- The geometry sequence used by the concrete scan evaluations. -/
def distQ : List ℚ := [0, 1]

/-- A concrete two-qubit operator. -/
def qopQ : QubitOp ℚ := ⟨2, []⟩

/-- The table produced by scanning `distQ` with `envQ` and `builderQ`:
per point, VQE total `-1 + d`, exact total `-2 + d`, error `1`,
nuclear repulsion `d`. -/
def tQ : ScanTable ℚ :=
  { distances := [0, 1]
    vqe_energies := [-1, 0]
    exact_energies := [-2, -1]
    errors := [1, 1]
    nuclear_repulsions := [0, 1] }

/-! Helper lemmas shared by the claim theorems. -/

/-- Inversion of one successful loop body: the row's four scalars are the
VQE total, the exact total, their absolute difference and the nuclear
repulsion, with the VQE run invoked at seed `seed + i`. -/
theorem scan_point_ok_elim {R : Type} [LinearOrderedField R] (env : Env R)
    (w : World) (builder : R → Except String (QubitOp R × Problem R))
    (ansatz_type : String) (reps maxiter seed : ℕ) (i : ℕ) (d : R)
    (v e er n : R)
    (h : scan_point env w builder ansatz_type reps maxiter seed i d =
      Except.ok (v, e, er, n)) :
    ∃ qop prob vqe_result exact_raw,
      builder d = Except.ok (qop, prob) ∧
      run_vqe env w qop ansatz_type reps maxiter (seed + i) =
        Except.ok vqe_result ∧
      exact_energy env w qop = Except.ok exact_raw ∧
      v = vqe_result.energy + prob.nuclear_repulsion_energy ∧
      e = exact_raw + prob.nuclear_repulsion_energy ∧
      er = |v - e| ∧ n = prob.nuclear_repulsion_energy := by
  rw [scan_point] at h
  split at h
  · exact absurd h (by simp)
  next qop prob hb =>
    split at h
    · exact absurd h (by simp)
    next vqe_result hv =>
      split at h
      · exact absurd h (by simp)
      next exact_raw hx =>
        simp only [Except.ok.injEq, Prod.mk.injEq] at h
        obtain ⟨rfl, rfl, rfl, rfl⟩ := h
        exact ⟨qop, prob, vqe_result, exact_raw, hb, hv, hx,
          rfl, rfl, rfl, rfl⟩

/-- Inversion of a successful loop run: the four accumulated lists are as
long as the enumerated point list, and entry `j` is the row produced by
the loop body on the `j`-th enumerated point. -/
theorem scan_loop_ok_spec {R : Type} [LinearOrderedField R] (env : Env R)
    (w : World) (builder : R → Except String (QubitOp R × Problem R))
    (ansatz_type : String) (reps maxiter seed : ℕ) (ps : List (ℕ × R))
    (vs es errs ns : List R)
    (h : scan_loop env w builder ansatz_type reps maxiter seed ps =
      Except.ok (vs, es, errs, ns)) :
    vs.length = ps.length ∧ es.length = ps.length ∧
    errs.length = ps.length ∧ ns.length = ps.length ∧
    ∀ (j i : ℕ) (d : R), ps[j]? = some (i, d) →
      ∃ v e er n,
        scan_point env w builder ansatz_type reps maxiter seed i d =
          Except.ok (v, e, er, n) ∧
        vs[j]? = some v ∧ es[j]? = some e ∧ errs[j]? = some er ∧
        ns[j]? = some n := by
  induction ps generalizing vs es errs ns with
  | nil =>
    simp only [scan_loop, Except.ok.injEq, Prod.mk.injEq] at h
    obtain ⟨rfl, rfl, rfl, rfl⟩ := h
    exact ⟨rfl, rfl, rfl, rfl, fun j i d hj => by simp at hj⟩
  | cons p rest ih =>
    obtain ⟨i, d⟩ := p
    rw [scan_loop] at h
    split at h
    · exact absurd h (by simp)
    next row hrow =>
      split at h
      · exact absurd h (by simp)
      next vs' es' errs' ns' hrest =>
        simp only [Except.ok.injEq, Prod.mk.injEq] at h
        obtain ⟨rfl, rfl, rfl, rfl⟩ := h
        obtain ⟨l1, l2, l3, l4, hpt⟩ :=
          ih vs' es' errs' ns' hrest
        refine ⟨by simp [l1], by simp [l2], by simp [l3], by simp [l4], ?_⟩
        intro j i' d' hj
        cases j with
        | zero =>
          simp only [List.getElem?_cons_zero, Option.some.injEq,
            Prod.mk.injEq] at hj
          obtain ⟨rfl, rfl⟩ := hj
          exact ⟨row.1, row.2.1, row.2.2.1, row.2.2.2, hrow, by simp,
            by simp, by simp, by simp⟩
        | succ j' =>
          simp only [List.getElem?_cons_succ] at hj
          obtain ⟨v, e, er, n, hp, h1, h2, h3, h4⟩ := hpt j' i' d' hj
          exact ⟨v, e, er, n, hp, by simpa using h1, by simpa using h2,
            by simpa using h3, by simpa using h4⟩

/-- Inversion of a successful scan: the table is the input geometry
sequence together with the four lists accumulated by the loop over the
enumerated points. -/
theorem scan_pes_ok_elim {R : Type} [LinearOrderedField R] (env : Env R)
    (w : World) (builder : R → Except String (QubitOp R × Problem R))
    (distances : List R) (ansatz_type : String) (reps maxiter seed : ℕ)
    (t : ScanTable R)
    (h : scan_pes env w builder distances ansatz_type reps maxiter seed =
      Except.ok t) :
    ∃ vs es errs ns,
      scan_loop env w builder ansatz_type reps maxiter seed
        distances.enum = Except.ok (vs, es, errs, ns) ∧
      t = { distances := distances, vqe_energies := vs,
            exact_energies := es, errors := errs,
            nuclear_repulsions := ns } := by
  rw [scan_pes] at h
  split at h
  · exact absurd h (by simp)
  next vs es errs ns hl =>
    simp only [Except.ok.injEq] at h
    exact ⟨vs, es, errs, ns, hl, h.symm⟩

/-- Fail-fast behaviour of the loop: if every point before position `j`
succeeds and the point at position `j` fails with `e`, the whole loop
evaluates to that error. -/
theorem scan_loop_first_error {R : Type} [LinearOrderedField R] (env : Env R)
    (w : World) (builder : R → Except String (QubitOp R × Problem R))
    (ansatz_type : String) (reps maxiter seed : ℕ) (e : String)
    (ps : List (ℕ × R)) :
    ∀ (j i : ℕ) (d : R), ps[j]? = some (i, d) →
      (∀ k i' d', k < j → ps[k]? = some (i', d') →
        ∃ row, scan_point env w builder ansatz_type reps maxiter seed i' d' =
          Except.ok row) →
      scan_point env w builder ansatz_type reps maxiter seed i d =
        Except.error e →
      scan_loop env w builder ansatz_type reps maxiter seed ps =
        Except.error e := by
  induction ps with
  | nil => intro j i d hj _ _; simp at hj
  | cons q rest ih =>
    intro j i d hj hprev hfail
    obtain ⟨a, b⟩ := q
    rw [scan_loop]
    cases j with
    | zero =>
      simp only [List.getElem?_cons_zero, Option.some.injEq,
        Prod.mk.injEq] at hj
      obtain ⟨rfl, rfl⟩ := hj
      rw [hfail]
    | succ j' =>
      obtain ⟨row, hrow⟩ := hprev 0 a b (Nat.succ_pos j') (by simp)
      rw [hrow]
      simp only [List.getElem?_cons_succ] at hj
      have hrest := ih j' i d hj
        (fun k i' d' hk hq =>
          hprev (k + 1) i' d' (Nat.succ_lt_succ hk) (by simpa using hq))
        hfail
      rw [hrest]

/-- C10: on the empty geometry sequence, `scan_pes` succeeds for every
environment, ambient state and molecule builder — so none of the molecule
builder, the VQE runner or the exact solver is consulted — and all five
sequences of the returned table are empty. -/
theorem scan_pes_empty {R : Type} [LinearOrderedField R] (env : Env R)
    (w : World) (builder : R → Except String (QubitOp R × Problem R))
    (ansatz_type : String) (reps maxiter seed : ℕ) :
    scan_pes env w builder [] ansatz_type reps maxiter seed =
      Except.ok { distances := [], vqe_energies := [], exact_energies := [],
                  errors := [], nuclear_repulsions := [] } := rfl

/-- C2: for a fixed qubit operator and fixed configuration (ansatz kind,
reps, maxiter, seed), two runs of the VQE runner — under arbitrary,
possibly different ambient process states — return identical results, and
in particular identical energies and energy histories: the caller's seed
is the only run-to-run input the body reads. -/
theorem run_vqe_deterministic {R : Type} [LinearOrderedField R]
    (env : Env R) (w₁ w₂ : World) (hamiltonian : QubitOp R)
    (ansatz_type : String) (reps maxiter seed : ℕ) :
    run_vqe env w₁ hamiltonian ansatz_type reps maxiter seed =
      run_vqe env w₂ hamiltonian ansatz_type reps maxiter seed := rfl

/-- C8: the exact solver is stateless and idempotent: a fresh solver is
built inside each call, no state crosses calls, and two calls on the same
qubit operator — under arbitrary, possibly different ambient process
states — return the same eigenvalue. -/
theorem exact_energy_stateless {R : Type} [LinearOrderedField R]
    (env : Env R) (w₁ w₂ : World) (hamiltonian : QubitOp R) :
    exact_energy env w₁ hamiltonian = exact_energy env w₂ hamiltonian := rfl

/-- C9: for every bond angle θ (degrees), `build_beh2` places Be at the
origin and the two H atoms symmetrically about the z-axis at
`(0, ±d·sin(θ/2 in radians), d·cos(θ/2 in radians))` with the fixed bond
length `d = 1.326`, converting `θ/2` to radians (`· π/180`) before the
trigonometric projection; the computed geometry coincides with the
specification's formula. -/
theorem build_beh2_geometry_spec {R : Type} [LinearOrderedField R]
    (env : Env R) (angle : R) :
    build_beh2_geometry env angle = beh2_spec_positions env angle ∧
    np_radians env (angle / 2) = angle / 2 * env.pi / 180 ∧
    ∃ be h1 h2, build_beh2_geometry env angle = [be, h1, h2] ∧
      be = ⟨"Be", 0, 0, 0⟩ ∧ h1.symbol = "H" ∧ h2.symbol = "H" ∧
      h1.x = 0 ∧ h2.x = 0 ∧
      h1.y = (1326 / 1000 : R) * env.sin (np_radians env (angle / 2)) ∧
      h1.z = (1326 / 1000 : R) * env.cos (np_radians env (angle / 2)) ∧
      h2.y = -h1.y ∧ h2.z = h1.z :=
  ⟨rfl, rfl, _, _, _, rfl, rfl, rfl, rfl, rfl, rfl, rfl, rfl, rfl, rfl⟩

/-- C1: for every successful scan over a geometry sequence of `n` points,
the returned table holds exactly the five keys (the fields of
`ScanTable`), each sequence has length exactly `n`, the geometry sequence
is returned in input order, and entry `i` of each sequence belongs to the
row computed from the `i`-th input geometry point — nothing is removed or
reordered. -/
theorem scan_pes_table_shape {R : Type} [LinearOrderedField R] (env : Env R)
    (w : World) (builder : R → Except String (QubitOp R × Problem R))
    (distances : List R) (ansatz_type : String) (reps maxiter seed : ℕ)
    (t : ScanTable R)
    (h : scan_pes env w builder distances ansatz_type reps maxiter seed =
      Except.ok t) :
    t.distances = distances ∧
    t.distances.length = distances.length ∧
    t.vqe_energies.length = distances.length ∧
    t.exact_energies.length = distances.length ∧
    t.errors.length = distances.length ∧
    t.nuclear_repulsions.length = distances.length ∧
    ∀ (i : ℕ) (d : R), distances[i]? = some d →
      ∃ v e er n,
        scan_point env w builder ansatz_type reps maxiter seed i d =
          Except.ok (v, e, er, n) ∧
        t.vqe_energies[i]? = some v ∧ t.exact_energies[i]? = some e ∧
        t.errors[i]? = some er ∧ t.nuclear_repulsions[i]? = some n := by
  obtain ⟨vs, es, errs, ns, hl, rfl⟩ :=
    scan_pes_ok_elim env w builder distances ansatz_type reps maxiter seed t h
  obtain ⟨l1, l2, l3, l4, hpt⟩ :=
    scan_loop_ok_spec env w builder ansatz_type reps maxiter seed
      distances.enum vs es errs ns hl
  refine ⟨rfl, rfl, ?_, ?_, ?_, ?_, ?_⟩
  · simpa [List.enum_length] using l1
  · simpa [List.enum_length] using l2
  · simpa [List.enum_length] using l3
  · simpa [List.enum_length] using l4
  · intro i d hd
    exact hpt i i d (by rw [List.getElem?_enum, hd]; rfl)

/-- C3: for every successful scan and every geometry point `i`, the table
satisfies `vqe_energies[i] = (VQE electronic eigenvalue) + nuclear
repulsion`, `exact_energies[i] = (exact electronic eigenvalue) + nuclear
repulsion` and `errors[i] = |vqe_energies[i] − exact_energies[i]|`, and
every entry of `errors` is non-negative. -/
theorem scan_pes_pointwise_energies {R : Type} [LinearOrderedField R]
    (env : Env R) (w : World)
    (builder : R → Except String (QubitOp R × Problem R))
    (distances : List R) (ansatz_type : String) (reps maxiter seed : ℕ)
    (t : ScanTable R)
    (h : scan_pes env w builder distances ansatz_type reps maxiter seed =
      Except.ok t) :
    (∀ (i : ℕ) (d : R), distances[i]? = some d →
      ∃ qop prob vqe_result exact_raw,
        builder d = Except.ok (qop, prob) ∧
        run_vqe env w qop ansatz_type reps maxiter (seed + i) =
          Except.ok vqe_result ∧
        exact_energy env w qop = Except.ok exact_raw ∧
        t.vqe_energies[i]? =
          some (vqe_result.energy + prob.nuclear_repulsion_energy) ∧
        t.exact_energies[i]? =
          some (exact_raw + prob.nuclear_repulsion_energy) ∧
        t.errors[i]? =
          some |vqe_result.energy + prob.nuclear_repulsion_energy -
            (exact_raw + prob.nuclear_repulsion_energy)| ∧
        t.nuclear_repulsions[i]? = some prob.nuclear_repulsion_energy) ∧
    ∀ (i : ℕ) (er : R), t.errors[i]? = some er → 0 ≤ er := by
  obtain ⟨vs, es, errs, ns, hl, rfl⟩ :=
    scan_pes_ok_elim env w builder distances ansatz_type reps maxiter seed t h
  obtain ⟨l1, l2, l3, l4, hpt⟩ :=
    scan_loop_ok_spec env w builder ansatz_type reps maxiter seed
      distances.enum vs es errs ns hl
  have hmain : ∀ (i : ℕ) (d : R), distances[i]? = some d →
      ∃ qop prob vqe_result exact_raw,
        builder d = Except.ok (qop, prob) ∧
        run_vqe env w qop ansatz_type reps maxiter (seed + i) =
          Except.ok vqe_result ∧
        exact_energy env w qop = Except.ok exact_raw ∧
        vs[i]? = some (vqe_result.energy + prob.nuclear_repulsion_energy) ∧
        es[i]? = some (exact_raw + prob.nuclear_repulsion_energy) ∧
        errs[i]? =
          some |vqe_result.energy + prob.nuclear_repulsion_energy -
            (exact_raw + prob.nuclear_repulsion_energy)| ∧
        ns[i]? = some prob.nuclear_repulsion_energy := by
    intro i d hd
    obtain ⟨v, e, er, n, hp, h1, h2, h3, h4⟩ :=
      hpt i i d (by rw [List.getElem?_enum, hd]; rfl)
    obtain ⟨qop, prob, vr, ex, hb, hv, hx, rfl, rfl, rfl, rfl⟩ :=
      scan_point_ok_elim env w builder ansatz_type reps maxiter seed i d
        _ _ _ _ hp
    exact ⟨qop, prob, vr, ex, hb, hv, hx, h1, h2, h3, h4⟩
  refine ⟨hmain, ?_⟩
  intro i er her
  have hi : i < distances.length := by
    have hlt := (List.getElem?_eq_some.mp her).1
    rw [l3, List.enum_length] at hlt
    exact hlt
  obtain ⟨qop, prob, vr, ex, hb, hv, hx, h1, h2, h3, h4⟩ :=
    hmain i distances[i] (List.getElem?_eq_getElem hi)
  rw [her] at h3
  obtain rfl : er = _ := (Option.some.injEq _ _).mp h3
  exact abs_nonneg _

/-- C4: for every pair of successful scans of the same geometry sequence
with base seeds `s₁ ≠ s₂`, the VQE runner at zero-based point `i` is
invoked with seed exactly `s₁ + i` (resp. `s₂ + i`); the point ordering of
the output table equals the input ordering for both seeds, and — whenever
the generator is seed-injective — the initial randomization differs at
every point between the two base seeds. -/
theorem scan_pes_seed_derivation {R : Type} [LinearOrderedField R]
    (env : Env R) (w : World)
    (builder : R → Except String (QubitOp R × Problem R))
    (distances : List R) (ansatz_type : String) (reps maxiter : ℕ)
    (s₁ s₂ : ℕ) (t₁ t₂ : ScanTable R)
    (h₁ : scan_pes env w builder distances ansatz_type reps maxiter s₁ =
      Except.ok t₁)
    (h₂ : scan_pes env w builder distances ansatz_type reps maxiter s₂ =
      Except.ok t₂)
    (hinj : ∀ (a b : ℕ) (lo hi : R) (n : ℕ),
      env.rngUniform a lo hi n = env.rngUniform b lo hi n → a = b)
    (hne : s₁ ≠ s₂) :
    t₁.distances = distances ∧ t₂.distances = distances ∧
    (∀ (i : ℕ) (d : R), distances[i]? = some d →
      ∃ qop prob vqe_result,
        builder d = Except.ok (qop, prob) ∧
        run_vqe env w qop ansatz_type reps maxiter (s₁ + i) =
          Except.ok vqe_result ∧
        t₁.vqe_energies[i]? =
          some (vqe_result.energy + prob.nuclear_repulsion_energy)) ∧
    ∀ (i n : ℕ),
      vqe_initial_point env (s₁ + i) n ≠ vqe_initial_point env (s₂ + i) n := by
  obtain ⟨vs, es, errs, ns, hl, rfl⟩ :=
    scan_pes_ok_elim env w builder distances ansatz_type reps maxiter s₁ t₁ h₁
  obtain ⟨vs₂, es₂, errs₂, ns₂, hl₂, rfl⟩ :=
    scan_pes_ok_elim env w builder distances ansatz_type reps maxiter s₂ t₂ h₂
  obtain ⟨l1, l2, l3, l4, hpt⟩ :=
    scan_loop_ok_spec env w builder ansatz_type reps maxiter s₁
      distances.enum vs es errs ns hl
  refine ⟨rfl, rfl, ?_, ?_⟩
  · intro i d hd
    obtain ⟨v, e, er, n, hp, h1, h2, h3, h4⟩ :=
      hpt i i d (by rw [List.getElem?_enum, hd]; rfl)
    obtain ⟨qop, prob, vr, ex, hb, hv, hx, rfl, rfl, rfl, rfl⟩ :=
      scan_point_ok_elim env w builder ansatz_type reps maxiter s₁ i d
        _ _ _ _ hp
    exact ⟨qop, prob, vr, hb, hv, h1⟩
  · intro i n heq
    simp only [vqe_initial_point] at heq
    exact hne (Nat.add_right_cancel (hinj (s₁ + i) (s₂ + i) _ _ _ heq))

/-- C5: the VQE runner accepts exactly the names `RealAmplitudes` and
`EfficientSU2` (for which the ansatz construction succeeds); for every
other name it returns the invalid-argument error
`Unknown ansatz type: <name>` — for every environment, so before any
optimizer iteration or energy evaluation can occur — and never an `ok`
result. -/
theorem run_vqe_ansatz_validation {R : Type} [LinearOrderedField R]
    (env : Env R) (w : World) (hamiltonian : QubitOp R) (name : String)
    (reps maxiter seed : ℕ)
    (hn : name ≠ "RealAmplitudes") (hn' : name ≠ "EfficientSU2") :
    run_vqe env w hamiltonian name reps maxiter seed =
      Except.error ("Unknown ansatz type: " ++ name) ∧
    (∀ r : VqeResult R,
      run_vqe env w hamiltonian name reps maxiter seed ≠ Except.ok r) ∧
    build_ansatz hamiltonian.num_qubits "RealAmplitudes" reps =
      Except.ok (Ansatz.realAmplitudes hamiltonian.num_qubits reps "linear") ∧
    build_ansatz hamiltonian.num_qubits "EfficientSU2" reps =
      Except.ok (Ansatz.efficientSU2 hamiltonian.num_qubits reps "circular") := by
  have hba : build_ansatz hamiltonian.num_qubits name reps =
      Except.error ("Unknown ansatz type: " ++ name) := by
    rw [build_ansatz, if_neg hn, if_neg hn']
  refine ⟨?_, ?_, by rw [build_ansatz, if_pos rfl], ?_⟩
  · simp only [run_vqe, hba]
  · intro r hr
    simp only [run_vqe, hba] at hr
    exact absurd hr (by simp)
  · rw [build_ansatz, if_neg (by decide), if_pos rfl]

/-- C6: for every VQE run whose ansatz construction succeeds, the initial
parameter vector has length equal to the ansatz's parameter count, every
component lies in `[−π, π]` (given numpy's contract for
`Generator.uniform`), and the run proceeds by feeding exactly that
seed-derived initial point to the optimizer loop — the generator is
seeded from the caller's seed alone. -/
theorem run_vqe_initial_point_spec {R : Type} [LinearOrderedField R]
    (env : Env R) (hamiltonian : QubitOp R) (name : String)
    (reps seed : ℕ) (a : Ansatz)
    (hpi : 0 < env.pi)
    (hlen : ∀ (s : ℕ) (lo hi : R) (n : ℕ),
      (env.rngUniform s lo hi n).length = n)
    (hmem : ∀ (s : ℕ) (lo hi : R) (n : ℕ) (x : R), lo < hi →
      x ∈ env.rngUniform s lo hi n → lo ≤ x ∧ x < hi)
    (ha : build_ansatz hamiltonian.num_qubits name reps = Except.ok a) :
    (vqe_initial_point env seed (Ansatz.num_parameters env a)).length =
      Ansatz.num_parameters env a ∧
    (∀ x ∈ vqe_initial_point env seed (Ansatz.num_parameters env a),
      -env.pi ≤ x ∧ x ≤ env.pi) ∧
    ∀ (w : World) (maxiter : ℕ),
      run_vqe env w hamiltonian name reps maxiter seed =
        match env.computeMinEig a maxiter
            (vqe_initial_point env seed (Ansatz.num_parameters env a))
            hamiltonian with
        | Except.error e => Except.error e
        | Except.ok outcome =>
          Except.ok (vqe_package name (Ansatz.num_parameters env a) outcome) := by
  refine ⟨hlen seed (-env.pi) env.pi _, ?_, ?_⟩
  · intro x hx
    have hx' := hmem seed (-env.pi) env.pi (Ansatz.num_parameters env a) x
      (neg_lt_self hpi) hx
    exact ⟨hx'.1, le_of_lt hx'.2⟩
  · intro w maxiter
    simp only [run_vqe, ha]

/-- C7: if every geometry point before position `j` succeeds and the
computation at position `j` fails (molecule builder, VQE runner or exact
solver, folded into the loop body), the whole scan fails with that error
propagated unchanged: no partial table is returned and completed points
are not salvaged. -/
theorem scan_pes_fail_fast {R : Type} [LinearOrderedField R] (env : Env R)
    (w : World) (builder : R → Except String (QubitOp R × Problem R))
    (distances : List R) (ansatz_type : String) (reps maxiter seed : ℕ)
    (j : ℕ) (d : R) (e : String)
    (hd : distances[j]? = some d)
    (hprev : ∀ (k : ℕ) (dk : R), k < j → distances[k]? = some dk →
      ∃ row, scan_point env w builder ansatz_type reps maxiter seed k dk =
        Except.ok row)
    (hfail : scan_point env w builder ansatz_type reps maxiter seed j d =
      Except.error e) :
    scan_pes env w builder distances ansatz_type reps maxiter seed =
      Except.error e := by
  have henum : distances.enum[j]? = some (j, d) := by
    rw [List.getElem?_enum, hd]; rfl
  have hprev' : ∀ (k i' : ℕ) (d' : R), k < j →
      distances.enum[k]? = some (i', d') →
      ∃ row, scan_point env w builder ansatz_type reps maxiter seed i' d' =
        Except.ok row := by
    intro k i' d' hk hq
    rw [List.getElem?_enum] at hq
    cases hdk : distances[k]? with
    | none => rw [hdk] at hq; exact absurd hq (by simp)
    | some dk =>
      rw [hdk] at hq
      simp only [Option.map_some', Option.some.injEq, Prod.mk.injEq] at hq
      obtain ⟨rfl, rfl⟩ := hq
      exact hprev k dk hk hdk
  have hl := scan_loop_first_error env w builder ansatz_type reps maxiter
    seed e distances.enum j j d henum hprev' hfail
  simp only [scan_pes, hl]

/-! Witnesses: the claim theorems applied to closed inputs over `ℚ`. -/

/-- C1 witness: the shape property evaluated on a concrete two-point scan. -/
theorem scan_pes_table_shape_witness :
    tQ.distances = distQ ∧ tQ.distances.length = distQ.length ∧
    tQ.vqe_energies.length = distQ.length ∧
    tQ.exact_energies.length = distQ.length ∧
    tQ.errors.length = distQ.length ∧
    tQ.nuclear_repulsions.length = distQ.length ∧
    ∀ (i : ℕ) (d : ℚ), distQ[i]? = some d →
      ∃ v e er n,
        scan_point envQ w0 builderQ "RealAmplitudes" 3 200 5 i d =
          Except.ok (v, e, er, n) ∧
        tQ.vqe_energies[i]? = some v ∧ tQ.exact_energies[i]? = some e ∧
        tQ.errors[i]? = some er ∧ tQ.nuclear_repulsions[i]? = some n :=
  scan_pes_table_shape envQ w0 builderQ distQ "RealAmplitudes" 3 200 5 tQ
    (by norm_num [scan_pes, scan_loop, scan_point, run_vqe, exact_energy,
      build_ansatz, vqe_initial_point, vqe_package, envQ, builderQ, distQ,
      tQ, Ansatz.num_parameters, List.enum, List.enumFrom])

/-- C3 witness: the per-point energy relations evaluated on the same
concrete scan. -/
theorem scan_pes_pointwise_energies_witness :
    (∀ (i : ℕ) (d : ℚ), distQ[i]? = some d →
      ∃ qop prob vqe_result exact_raw,
        builderQ d = Except.ok (qop, prob) ∧
        run_vqe envQ w0 qop "RealAmplitudes" 3 200 (5 + i) =
          Except.ok vqe_result ∧
        exact_energy envQ w0 qop = Except.ok exact_raw ∧
        tQ.vqe_energies[i]? =
          some (vqe_result.energy + prob.nuclear_repulsion_energy) ∧
        tQ.exact_energies[i]? =
          some (exact_raw + prob.nuclear_repulsion_energy) ∧
        tQ.errors[i]? =
          some |vqe_result.energy + prob.nuclear_repulsion_energy -
            (exact_raw + prob.nuclear_repulsion_energy)| ∧
        tQ.nuclear_repulsions[i]? = some prob.nuclear_repulsion_energy) ∧
    ∀ (i : ℕ) (er : ℚ), tQ.errors[i]? = some er → 0 ≤ er :=
  scan_pes_pointwise_energies envQ w0 builderQ distQ "RealAmplitudes" 3 200
    5 tQ
    (by norm_num [scan_pes, scan_loop, scan_point, run_vqe, exact_energy,
      build_ansatz, vqe_initial_point, vqe_package, envQ, builderQ, distQ,
      tQ, Ansatz.num_parameters, List.enum, List.enumFrom])

/-- C4 witness: the seed-derivation property evaluated on two concrete
scans of the same geometry with base seeds 0 and 1, over the
seed-injective environment. -/
theorem scan_pes_seed_derivation_witness :
    tQ.distances = distQ ∧ tQ.distances = distQ ∧
    (∀ (i : ℕ) (d : ℚ), distQ[i]? = some d →
      ∃ qop prob vqe_result,
        builderQ d = Except.ok (qop, prob) ∧
        run_vqe envQinj w0 qop "RealAmplitudes" 3 200 (0 + i) =
          Except.ok vqe_result ∧
        tQ.vqe_energies[i]? =
          some (vqe_result.energy + prob.nuclear_repulsion_energy)) ∧
    ∀ (i n : ℕ),
      vqe_initial_point envQinj (0 + i) n ≠
        vqe_initial_point envQinj (1 + i) n :=
  scan_pes_seed_derivation envQinj w0 builderQ distQ "RealAmplitudes" 3 200
    0 1 tQ tQ
    (by norm_num [scan_pes, scan_loop, scan_point, run_vqe, exact_energy,
      build_ansatz, vqe_initial_point, vqe_package, envQinj, envQ, builderQ,
      distQ, tQ, Ansatz.num_parameters, List.enum, List.enumFrom])
    (by norm_num [scan_pes, scan_loop, scan_point, run_vqe, exact_energy,
      build_ansatz, vqe_initial_point, vqe_package, envQinj, envQ, builderQ,
      distQ, tQ, Ansatz.num_parameters, List.enum, List.enumFrom])
    (fun a b lo hi n heq => by
      have hlen2 := congrArg List.length heq
      simp only [envQinj, envQ, List.length_replicate] at hlen2
      omega)
    (by decide)

/-- C5 witness: the unsupported name `bogus` is rejected with the
configuration error, and both supported names are accepted. -/
theorem run_vqe_ansatz_validation_witness :
    run_vqe envQ w0 qopQ "bogus" 3 200 42 =
      Except.error ("Unknown ansatz type: " ++ "bogus") ∧
    (∀ r : VqeResult ℚ,
      run_vqe envQ w0 qopQ "bogus" 3 200 42 ≠ Except.ok r) ∧
    build_ansatz qopQ.num_qubits "RealAmplitudes" 3 =
      Except.ok (Ansatz.realAmplitudes qopQ.num_qubits 3 "linear") ∧
    build_ansatz qopQ.num_qubits "EfficientSU2" 3 =
      Except.ok (Ansatz.efficientSU2 qopQ.num_qubits 3 "circular") :=
  run_vqe_ansatz_validation envQ w0 qopQ "bogus" 3 200 42 (by decide)
    (by decide)

/-- C6 witness: the initial-point property evaluated on the concrete
environment, operator and the `RealAmplitudes` ansatz. -/
theorem run_vqe_initial_point_spec_witness :
    (vqe_initial_point envQ 42
      (Ansatz.num_parameters envQ (Ansatz.realAmplitudes 2 3 "linear"))).length =
      Ansatz.num_parameters envQ (Ansatz.realAmplitudes 2 3 "linear") ∧
    (∀ x ∈ vqe_initial_point envQ 42
        (Ansatz.num_parameters envQ (Ansatz.realAmplitudes 2 3 "linear")),
      -envQ.pi ≤ x ∧ x ≤ envQ.pi) ∧
    ∀ (w : World) (maxiter : ℕ),
      run_vqe envQ w qopQ "RealAmplitudes" 3 maxiter 42 =
        match envQ.computeMinEig (Ansatz.realAmplitudes 2 3 "linear") maxiter
            (vqe_initial_point envQ 42
              (Ansatz.num_parameters envQ (Ansatz.realAmplitudes 2 3 "linear")))
            qopQ with
        | Except.error e => Except.error e
        | Except.ok outcome =>
          Except.ok (vqe_package "RealAmplitudes"
            (Ansatz.num_parameters envQ (Ansatz.realAmplitudes 2 3 "linear"))
            outcome) :=
  run_vqe_initial_point_spec envQ qopQ "RealAmplitudes" 3 42
    (Ansatz.realAmplitudes 2 3 "linear")
    (by norm_num [envQ])
    (by intro s lo hi n; simp [envQ])
    (by
      intro s lo hi n x hlt hx
      simp only [envQ, List.mem_replicate] at hx
      obtain ⟨-, rfl⟩ := hx
      exact ⟨le_refl _, hlt⟩)
    rfl

/-- C7 witness: a concrete scan whose builder fails at the second point
aborts with exactly that error. -/
theorem scan_pes_fail_fast_witness :
    scan_pes envQ w0 builderFailQ distQ "RealAmplitudes" 3 200 5 =
      Except.error "boom" :=
  scan_pes_fail_fast envQ w0 builderFailQ distQ "RealAmplitudes" 3 200 5
    1 1 "boom" rfl
    (by
      intro k dk hk hdk
      have hk0 : k = 0 := by omega
      subst hk0
      have hdk0 : dk = 0 := by
        simp only [distQ, List.getElem?_cons_zero, Option.some.injEq] at hdk
        exact hdk.symm
      subst hdk0
      exact ⟨(-1, -2, 1, 0), by norm_num [scan_point, run_vqe, exact_energy,
        build_ansatz, vqe_initial_point, vqe_package, envQ, builderQ,
        builderFailQ, Ansatz.num_parameters]⟩)
    (by norm_num [scan_point, builderFailQ])

end QuantumChemPES
